import Mathlib

/-!
Verification development for `ELLIE_fibre_positions.py`, a script computing
TELLIE fibre install positions on the PSUP hex panels.

The script's vector algebra is done with ROOT `TVector3` over machine floats;
we embed it over the real numbers.  All control flow (string matching, table
lookups, per-fibre error handling) is modelled exactly as written in the
source; Python exceptions become `Except`/`Option` values.
-/

noncomputable section

/-- Shallow embedding of ROOT's `TVector3`: a 3-vector of reals. -/
@[ext]
structure Vec3 where
  x : ℝ
  y : ℝ
  z : ℝ

namespace Vec3

def zero : Vec3 := ⟨0, 0, 0⟩

def add (a b : Vec3) : Vec3 := ⟨a.x + b.x, a.y + b.y, a.z + b.z⟩

def sub (a b : Vec3) : Vec3 := ⟨a.x - b.x, a.y - b.y, a.z - b.z⟩

def neg (a : Vec3) : Vec3 := ⟨-a.x, -a.y, -a.z⟩

def smul (k : ℝ) (a : Vec3) : Vec3 := ⟨k * a.x, k * a.y, k * a.z⟩

def dot (a b : Vec3) : ℝ := a.x * b.x + a.y * b.y + a.z * b.z

/-- `TVector3::Mag2`. -/
def mag2 (a : Vec3) : ℝ := dot a a

/-- `TVector3::Mag`. -/
def mag (a : Vec3) : ℝ := Real.sqrt (mag2 a)

def cross (a b : Vec3) : Vec3 :=
  ⟨a.y * b.z - a.z * b.y, a.z * b.x - a.x * b.z, a.x * b.y - a.y * b.x⟩

/-- `TVector3::SetMag m`: scales the vector to magnitude `m`; on the zero
vector ROOT only emits a warning and leaves the vector unchanged. -/
def setMag (a : Vec3) (m : ℝ) : Vec3 :=
  if mag a = 0 then a else smul (m / mag a) a

/-- `TVector3::Angle`: returns 0 when either vector is degenerate, otherwise
`acos` of the normalised dot product (ROOT clamps the argument to `[-1,1]`,
which `Real.arccos` also does by definition). -/
def angle (a b : Vec3) : ℝ :=
  if mag2 a * mag2 b ≤ 0 then 0
  else Real.arccos (dot a b / Real.sqrt (mag2 a * mag2 b))

end Vec3

/-! Hex-cell and plate constants, lines 158-162 of the source. -/

def hex_size : ℝ := 17.05

def plate_height : ℝ := 0.3 + 0.22

def hex_radius : ℝ := hex_size * Real.cos (30 * (Real.pi / 180))

def fibre_separation : ℝ := 0.51

/-- Line 188: `plate_vec = host_vec + cent_to_neig_unit*(hex_radius + plate_height)`
where `cent_to_neig_unit` is `neighbour_vec - vec_from_centre` rescaled to
unit magnitude via `SetMag(1.0)` (lines 184-185). -/
def plate_vec (central host neigh : Vec3) : Vec3 :=
  Vec3.add host (Vec3.smul (hex_radius + plate_height) (Vec3.setMag (Vec3.sub neigh central) 1))

/-- Lines 191-192: `curve_correction = (plate_vec - host_vec).Cross(vec_to_centre)`
then `SetMag(1.)`; `vec_to_centre` itself was rescaled by `SetMag(1.)` (line 181). -/
def curve_correction (central host neigh toC : Vec3) : Vec3 :=
  Vec3.setMag (Vec3.cross (Vec3.sub (plate_vec central host neigh) host) (Vec3.setMag toC 1)) 1

/-- Lines 195-196: `positionA = plate_vec + curve_correction*fibre_separation`,
`positionB = plate_vec - curve_correction*fibre_separation`.  This is the pure
vector core of `calc_fibre_placement` once all table lookups have resolved. -/
def placementCore (central host neigh toC : Vec3) : Vec3 × Vec3 :=
  (Vec3.add (plate_vec central host neigh)
      (Vec3.smul fibre_separation (curve_correction central host neigh toC)),
   Vec3.sub (plate_vec central host neigh)
      (Vec3.smul fibre_separation (curve_correction central host neigh toC)))

/-- Modelled from the spec (§4.3 step 3): the unit vector in the direction of
`v`, written as the spec words it, for comparison with the source's `SetMag`. -/
def spec_unit (v : Vec3) : Vec3 := Vec3.smul (1 / Vec3.mag v) v

/-- Modelled from the spec (§4.3 step 4 and its constants): `plate_vec` =
host_vector + cent_to_neighbour_unit × (hex_radius + plate_height) with
hex_radius = 17.05·cos 30° and plate_height = 0.52 cm. -/
def spec_plate_vec (central host neigh : Vec3) : Vec3 :=
  Vec3.add host (Vec3.smul (17.05 * Real.cos (30 * (Real.pi / 180)) + 0.52)
    (spec_unit (Vec3.sub neigh central)))

/-! Table lookups: `get_pmt_coordinates` (lines 105-153).  A `Row` is one
parsed line of the coordinate file (header skipped, empty fields filtered;
the parsing itself is out of scope per spec §1/§6): `cell` is `row[1]`,
`pos` is `(row[3], row[4], row[5])`, `panel` is `row[6]`. -/

structure Row where
  cell : String
  pos : Vec3
  panel : String

/-- Digit accumulator for `pyToNat`. -/
def parseNatChars : List Char → Nat → Option Nat
  | [], acc => some acc
  | c :: cs, acc => if c.isDigit then parseNatChars cs (acc * 10 + (c.toNat - 48)) else none

/-- Model of Python's `int(s)` on a non-negative decimal string: `none` (a
`ValueError`) on the empty string or any non-digit character. -/
def pyToNat (s : String) : Option Nat :=
  if s.data.isEmpty then none else parseNatChars s.data 0

/-- Model of Python's `int(s)`, allowing a leading minus sign. -/
def pyToInt (s : String) : Option Int :=
  match s.data with
  | '-' :: c :: cs => (parseNatChars (c :: cs) 0).map (fun n => -(n : Int))
  | _ => (pyToNat s).map (fun n => (n : Int))

/-- Model of Python's substring test `pat in s` on the underlying char lists. -/
def listContainsSub (pat : List Char) : List Char → Bool
  | [] => pat.isPrefixOf ([] : List Char)
  | c :: cs => pat.isPrefixOf (c :: cs) || listContainsSub pat cs

/-- Line 110: `if "none" in neighbour_hex`. -/
def containsNone (s : String) : Bool := listContainsSub "none".data s.data

/-- First scan loop (lines 124-126): the last row whose `row[1][:4]` equals
the host id yields `host_vec` and `panel_name = row[6][:4]`; `none` models the
Python `NameError` when no row matches. -/
def hostScan (rows : List Row) (h : String) : Option (Vec3 × String) :=
  rows.foldl (fun acc r => if r.cell.take 4 == h then some (r.pos, r.panel.take 4) else acc) none

/-- First scan loop (lines 127-128) for the neighbour id. -/
def neighScan (rows : List Row) (n : String) : Option Vec3 :=
  rows.foldl (fun acc r => if r.cell.take 4 == n then some r.pos else acc) none

/-- Python dict assignment `panel_pmts[k] = v`: updates in place, appends new. -/
def dictUpdate (m : List (Nat × Vec3)) (k : Nat) (v : Vec3) : List (Nat × Vec3) :=
  if m.any (fun p => p.1 == k) then m.map (fun p => if p.1 == k then (k, v) else p)
  else m ++ [(k, v)]

/-- Second scan loop (lines 138-145): collect `panel_pmts[int(row[6][-2:])]`
for every row whose `row[6][:4]` equals the panel name; a non-numeric cell
index raises `ValueError` in Python, modelled as `Except.error`. -/
def panelPmts (rows : List Row) (pname : String) : Except String (List (Nat × Vec3)) :=
  rows.foldlM (fun m r =>
    if r.panel.take 4 == pname then
      match pyToNat (r.panel.takeRight 2) with
      | none => Except.error "bad cell index"
      | some k => Except.ok (dictUpdate m k r.pos)
    else Except.ok m) []

/-- `get_pmt_coordinates` (lines 105-153).  Returns
`(central_vec, host_vec, neighbour_vec, int(panel_name[1:]))`.  A host id with
no matching row raises an uncaught `NameError` in Python (either at line 133
inside the bare `except`, or at line 144 via the unbound `panel_name`);
likewise a missing central key raises `KeyError` — both become `Except.error`. -/
def getPmtCoordinates (host_hex neighbour_hex : String) (rows : List Row) :
    Except String (Vec3 × Vec3 × Vec3 × Int) :=
  let nh := if containsNone neighbour_hex then host_hex else neighbour_hex
  match hostScan rows host_hex with
  | none => Except.error "unresolvable host cell"
  | some (hv, pname) =>
    let nv := (neighScan rows nh).getD hv
    match panelPmts rows pname with
    | Except.error e => Except.error e
    | Except.ok pmts =>
      match (if pmts.length > 9 then List.lookup 10 pmts else List.lookup 4 pmts) with
      | none => Except.error "central cell missing"
      | some c =>
        match pyToInt (pname.drop 1) with
        | none => Except.error "bad panel id"
        | some pid => Except.ok (c, hv, nv, pid)

/-- The PANELINFO table from the external geometry database (lines 173-179):
parallel arrays `panel_number`, `u`, `v`, `w`. -/
structure PanelTable where
  panel_number : List Int
  u : List ℝ
  v : List ℝ
  w : List ℝ

/-- `calc_fibre_placement` (lines 155-210).  `panel_numbers_list.index(...)`
raises `ValueError` when the panel id is absent — fatal for the fibre. -/
def calc_fibre_placement (host_hex neighbour_hex : String) (rows : List Row)
    (pt : PanelTable) : Except String (Vec3 × Vec3) :=
  match getPmtCoordinates host_hex neighbour_hex rows with
  | Except.error e => Except.error e
  | Except.ok (vec_from_centre, host_vec, neighbour_vec, panel_name) =>
    match pt.panel_number.findIdx? (fun n => n == panel_name) with
    | none => Except.error "panel not in PANELINFO"
    | some i =>
      match pt.u[i]?, pt.v[i]?, pt.w[i]? with
      | some uu, some vv, some ww =>
        Except.ok (placementCore vec_from_centre host_vec neighbour_vec ⟨uu, vv, ww⟩)
      | _, _, _ => Except.error "panel table arrays out of range"

/-! The Validator: `compare_position_calculations` (lines 227-257). -/

/-- One printed discrepancy report (lines 250-257). -/
structure Report where
  fibre : String
  host : String
  neighbour : String
  databasePos : ℝ × ℝ × ℝ
  calculated : Vec3

/-- Loop body check (lines 243-257): the recorded x is divided by 10
(mm → cm); the computed position is `posB` when the fibre id's last char is
`B`, else `posA`; a report is emitted iff `|diff| > 1`. -/
def compareOne (fibre host neighbour : String) (rec : ℝ × ℝ × ℝ) (posA posB : Vec3) :
    Option Report :=
  let calcPos := if fibre.back == 'B' then posB else posA
  let diff := rec.1 / 10 - calcPos.x
  if |diff| > 1 then
    some ⟨fibre, host, neighbour, (rec.1 / 10, rec.2.1 / 10, rec.2.2 / 10), calcPos⟩
  else none

/-- `compare_position_calculations` (lines 227-257).  For each fibre the
placement is computed first — any failure there is an uncaught exception that
aborts the whole batch (there is no `try` around `calc_fibre_placement`).
Only a missing `x` field in the fibre's database record (lines 236-241) is
caught and skips just that fibre. -/
def comparePositions (fibres : List String) (pmt_hex neighbour_hex : String → String)
    (rows : List Row) (pt : PanelTable) (db : String → Option (ℝ × ℝ × ℝ)) :
    Except String (List Report) :=
  match fibres with
  | [] => Except.ok []
  | f :: rest =>
    match calc_fibre_placement (pmt_hex f) (neighbour_hex f) rows pt with
    | Except.error e => Except.error e
    | Except.ok (pA, pB) =>
      match db f with
      | none => comparePositions rest pmt_hex neighbour_hex rows pt db
      | some rec =>
        match comparePositions rest pmt_hex neighbour_hex rows pt db with
        | Except.error e => Except.error e
        | Except.ok rs =>
          Except.ok ((compareOne f (pmt_hex f) (neighbour_hex f) rec pA pB).toList ++ rs)

/-! Pointing angles and the new database files (lines 212-276). -/

/-- A fibre's record in the external FIBRE database: recorded position
`(x, y, z)` and pointing direction `(u, v, w)`. -/
structure FibreEntry where
  x : ℝ
  y : ℝ
  z : ℝ
  u : ℝ
  v : ℝ
  w : ℝ

/-- Line 225: `180 - central_vector.Angle(pointing_vector)*(180/np.pi)`. -/
def pointing_angle_of (central pointing : Vec3) : ℝ :=
  180 - Vec3.angle central pointing * (180 / Real.pi)

/-- `get_pointing_angle` (lines 212-225).  A fibre with no database entry
leaves `central_vector` unbound (the `raise` is commented out), so the return
statement raises `NameError` — modelled as `Except.error`. -/
def get_pointing_angle (fibre : String) (db : String → Option FibreEntry) :
    Except String ℝ :=
  match db fibre with
  | none => Except.error "fibre not in ratdb"
  | some e => Except.ok (pointing_angle_of ⟨e.x, e.y, e.z⟩ ⟨e.u, e.v, e.w⟩)

/-- `int(round(x, -1))`: round to the nearest multiple of ten.  (Python's
`round` sends exact halves to the even multiple; `Int.round` sends them up —
the two differ only on exact ties, which no claim depends on.) -/
def roundTen (x : ℝ) : Int := 10 * round (x / 10)

/-- The three `SetI` calls of lines 273-275, in order; note the source writes
the key `"psup_pannel"` (sic) while its own docstring names the field
`psup_panel`. -/
def dbRecord (node angleVal : Int) : List (String × Int) :=
  [("psup_pannel", node), ("pointing_angle", angleVal), ("fibre_status", 0)]

/-- Loop body of `make_new_db_files` (lines 262-276) for one fibre: `FT`
fibres get angle 0 without consulting the database; otherwise a failed
`get_pointing_angle` is caught and the fibre skipped (`continue`). -/
def processOne (fibre : String) (nodes : String → Int) (db : String → Option FibreEntry) :
    Option (List (String × Int)) :=
  if fibre.take 2 == "FT" then some (dbRecord (nodes fibre) 0)
  else
    match get_pointing_angle fibre db with
    | Except.error _ => none
    | Except.ok a => some (dbRecord (nodes fibre) (roundTen a))

/-- `make_new_db_files` (lines 259-276): one output record per fibre that is
not skipped, tagged with the fibre id it is saved under. -/
def make_new_db_files (fibres : List String) (nodes : String → Int)
    (db : String → Option FibreEntry) : List (String × List (String × Int)) :=
  match fibres with
  | [] => []
  | f :: rest =>
    match processOne f nodes db with
    | none => make_new_db_files rest nodes db
    | some r => (f, r) :: make_new_db_files rest nodes db

/-! Concrete data used by witnesses and counterexamples. -/

/-- A one-row coordinate table: cell `X10104` of panel `X101` at (1,2,3). -/
def demoRows : List Row := [⟨"X10104", ⟨1, 2, 3⟩, "X10104"⟩]

/-- A PANELINFO table containing panel 101 with outward direction (0,0,1). -/
def demoPT : PanelTable := ⟨[101], [0], [0], [1]⟩

/-! Basic magnitude lemmas. -/

theorem Vec3.mag2_nonneg (a : Vec3) : 0 ≤ a.mag2 := by
  have hx := mul_self_nonneg a.x
  have hy := mul_self_nonneg a.y
  have hz := mul_self_nonneg a.z
  unfold Vec3.mag2 Vec3.dot
  linarith

theorem Vec3.mag2_eq_zero_iff (a : Vec3) : a.mag2 = 0 ↔ a = Vec3.zero := by
  obtain ⟨ax, ay, az⟩ := a
  simp only [Vec3.mag2, Vec3.dot, Vec3.zero, Vec3.mk.injEq]
  constructor
  · intro h
    have hx := mul_self_nonneg ax
    have hy := mul_self_nonneg ay
    have hz := mul_self_nonneg az
    refine ⟨mul_self_eq_zero.mp (by linarith), mul_self_eq_zero.mp (by linarith),
      mul_self_eq_zero.mp (by linarith)⟩
  · rintro ⟨rfl, rfl, rfl⟩
    ring

theorem Vec3.mag_eq_zero_iff (a : Vec3) : a.mag = 0 ↔ a = Vec3.zero := by
  rw [Vec3.mag, Real.sqrt_eq_zero (Vec3.mag2_nonneg a), Vec3.mag2_eq_zero_iff]

theorem Vec3.mag_pos (a : Vec3) (h : a ≠ Vec3.zero) : 0 < a.mag := by
  have hne : a.mag ≠ 0 := fun hh => h ((Vec3.mag_eq_zero_iff a).mp hh)
  exact lt_of_le_of_ne (Real.sqrt_nonneg _) (Ne.symm hne)

theorem Vec3.mag_smul (k : ℝ) (a : Vec3) : (Vec3.smul k a).mag = |k| * a.mag := by
  unfold Vec3.mag Vec3.mag2 Vec3.dot Vec3.smul
  have h : k * a.x * (k * a.x) + k * a.y * (k * a.y) + k * a.z * (k * a.z)
      = k ^ 2 * (a.x * a.x + a.y * a.y + a.z * a.z) := by ring
  simp only [h]
  rw [Real.sqrt_mul (sq_nonneg k), Real.sqrt_sq_eq_abs]

theorem Vec3.mag_setMag_one (a : Vec3) (h : a ≠ Vec3.zero) : (Vec3.setMag a 1).mag = 1 := by
  have hne : a.mag ≠ 0 := fun hh => h ((Vec3.mag_eq_zero_iff a).mp hh)
  have hpos : 0 < a.mag := Vec3.mag_pos a h
  rw [Vec3.setMag, if_neg hne, Vec3.mag_smul, abs_of_pos (by positivity)]
  field_simp

/-! Evaluation helpers for the concrete witness inputs. -/

theorem mag_unit_z : Vec3.mag ⟨0, 0, 1⟩ = 1 := by
  rw [Vec3.mag, Vec3.mag2, Vec3.dot]
  norm_num

theorem mag_unit_y : Vec3.mag ⟨0, 1, 0⟩ = 1 := by
  rw [Vec3.mag, Vec3.mag2, Vec3.dot]
  norm_num

theorem setMag_unit_z : Vec3.setMag ⟨0, 0, 1⟩ 1 = ⟨0, 0, 1⟩ := by
  rw [Vec3.setMag, mag_unit_z]
  norm_num [Vec3.smul]

theorem setMag_unit_y : Vec3.setMag ⟨0, 1, 0⟩ 1 = ⟨0, 1, 0⟩ := by
  rw [Vec3.setMag, mag_unit_y]
  norm_num [Vec3.smul]

theorem hex_offset_pos : 0 < hex_radius + plate_height := by
  rw [hex_radius, plate_height, hex_size]
  have h30 : (30 : ℝ) * (Real.pi / 180) = Real.pi / 6 := by ring
  rw [h30, Real.cos_pi_div_six]
  positivity

theorem demo_sub_neigh : Vec3.sub ⟨0, 1, 0⟩ ⟨0, 0, 0⟩ = (⟨0, 1, 0⟩ : Vec3) := by
  rw [Vec3.sub]
  norm_num

theorem demo_plate :
    plate_vec ⟨0, 0, 0⟩ ⟨1, 0, 0⟩ ⟨0, 1, 0⟩ = ⟨1, hex_radius + plate_height, 0⟩ := by
  rw [plate_vec, demo_sub_neigh, setMag_unit_y, Vec3.smul, Vec3.add]
  norm_num

theorem demo_cross_ne_zero :
    Vec3.cross (Vec3.sub (plate_vec ⟨0, 0, 0⟩ ⟨1, 0, 0⟩ ⟨0, 1, 0⟩) ⟨1, 0, 0⟩)
      (Vec3.setMag ⟨0, 0, 1⟩ 1) ≠ Vec3.zero := by
  rw [demo_plate, setMag_unit_z, Vec3.sub, Vec3.cross]
  intro hEq
  have hx : hex_radius + plate_height = 0 := by
    have hpx := congrArg Vec3.x hEq
    simpa [Vec3.zero] using hpx
  exact absurd hx (ne_of_gt hex_offset_pos)

/-- Claim C1: for every host/neighbour pair for which placement succeeds
(non-degenerate curve correction), the two returned positions are symmetric
about `plate_vec` — `(A + B)/2 = plate_vec` — and `|A - B| = 2 ×
fibre_separation = 1.02 cm`, independent of the host/neighbour choice. -/
theorem C1_positions_symmetric (central host neigh toC : Vec3)
    (h : Vec3.cross (Vec3.sub (plate_vec central host neigh) host) (Vec3.setMag toC 1)
        ≠ Vec3.zero) :
    Vec3.smul (1 / 2) (Vec3.add (placementCore central host neigh toC).1
        (placementCore central host neigh toC).2) = plate_vec central host neigh ∧
    Vec3.mag (Vec3.sub (placementCore central host neigh toC).1
        (placementCore central host neigh toC).2) = 2 * fibre_separation ∧
    (2 * fibre_separation : ℝ) = 1.02 := by
  have hcc : (curve_correction central host neigh toC).mag = 1 := by
    rw [curve_correction]
    exact Vec3.mag_setMag_one _ h
  refine ⟨?_, ?_, by rw [fibre_separation]; norm_num⟩
  · ext <;> simp only [placementCore, Vec3.add, Vec3.sub, Vec3.smul] <;> ring
  · have hAB : Vec3.sub (placementCore central host neigh toC).1
        (placementCore central host neigh toC).2
        = Vec3.smul (2 * fibre_separation) (curve_correction central host neigh toC) := by
      ext <;> simp only [placementCore, Vec3.add, Vec3.sub, Vec3.smul] <;> ring
    rw [hAB, Vec3.mag_smul, hcc, mul_one, abs_of_pos (by rw [fibre_separation]; norm_num)]

/-- Witness for C1 at a concrete panel configuration. -/
theorem C1_witness :
    Vec3.smul (1 / 2) (Vec3.add (placementCore ⟨0, 0, 0⟩ ⟨1, 0, 0⟩ ⟨0, 1, 0⟩ ⟨0, 0, 1⟩).1
        (placementCore ⟨0, 0, 0⟩ ⟨1, 0, 0⟩ ⟨0, 1, 0⟩ ⟨0, 0, 1⟩).2)
      = plate_vec ⟨0, 0, 0⟩ ⟨1, 0, 0⟩ ⟨0, 1, 0⟩ ∧
    Vec3.mag (Vec3.sub (placementCore ⟨0, 0, 0⟩ ⟨1, 0, 0⟩ ⟨0, 1, 0⟩ ⟨0, 0, 1⟩).1
        (placementCore ⟨0, 0, 0⟩ ⟨1, 0, 0⟩ ⟨0, 1, 0⟩ ⟨0, 0, 1⟩).2) = 2 * fibre_separation ∧
    (2 * fibre_separation : ℝ) = 1.02 :=
  C1_positions_symmetric ⟨0, 0, 0⟩ ⟨1, 0, 0⟩ ⟨0, 1, 0⟩ ⟨0, 0, 1⟩ demo_cross_ne_zero

/-- Claim C2: for every host/neighbour pair for which placement succeeds
(neighbour distinct from the central cell so the unit vector exists),
`plate_vec` equals host_vector plus the unit vector from central_vector to
neighbour_vector scaled by `hex_radius + plate_height`, with hex_size =
17.05 cm, plate_height = 0.52 cm, hex_radius = hex_size·cos 30° and
fibre_separation = 0.51 cm, exactly as `spec_plate_vec` words it. -/
theorem C2_plate_vec_formula (central host neigh : Vec3)
    (h : Vec3.sub neigh central ≠ Vec3.zero) :
    plate_vec central host neigh = spec_plate_vec central host neigh ∧
    hex_size = 17.05 ∧ plate_height = 0.52 ∧ fibre_separation = 0.51 := by
  have hm : Vec3.mag (Vec3.sub neigh central) ≠ 0 :=
    fun hh => h ((Vec3.mag_eq_zero_iff _).mp hh)
  refine ⟨?_, rfl, by rw [plate_height]; norm_num, rfl⟩
  rw [plate_vec, spec_plate_vec, spec_unit, Vec3.setMag, if_neg hm]
  have hconst : hex_radius + plate_height
      = 17.05 * Real.cos (30 * (Real.pi / 180)) + 0.52 := by
    rw [hex_radius, plate_height, hex_size]
    norm_num
  rw [hconst]

/-- Witness for C2 at a concrete panel configuration. -/
theorem C2_witness :
    plate_vec ⟨0, 0, 0⟩ ⟨1, 0, 0⟩ ⟨0, 1, 0⟩ = spec_plate_vec ⟨0, 0, 0⟩ ⟨1, 0, 0⟩ ⟨0, 1, 0⟩ ∧
    hex_size = 17.05 ∧ plate_height = 0.52 ∧ fibre_separation = 0.51 :=
  C2_plate_vec_formula ⟨0, 0, 0⟩ ⟨1, 0, 0⟩ ⟨0, 1, 0⟩
    (by rw [demo_sub_neigh]; simp [Vec3.zero, Vec3.mk.injEq])

/-- Claim C3: whenever `get_pmt_coordinates` resolves the panel's member
cells, the distinguished central cell is index 10 when the panel has more
than 9 member cells and index 4 otherwise, and the returned central vector
is that cell's recorded position. -/
theorem C3_central_cell (host neigh : String) (rows : List Row) (c hv nv : Vec3) (pid : Int)
    (h : getPmtCoordinates host neigh rows = Except.ok (c, hv, nv, pid)) :
    ∃ pn pmts, hostScan rows host = some (hv, pn) ∧ panelPmts rows pn = Except.ok pmts ∧
      (if pmts.length > 9 then List.lookup 10 pmts = some c
       else List.lookup 4 pmts = some c) := by
  simp only [getPmtCoordinates] at h
  split at h
  · exact absurd h (by simp)
  next hv0 pn hh =>
    split at h
    · exact absurd h (by simp)
    next pmts hp =>
      split at h
      · exact absurd h (by simp)
      next c0 hl =>
        split at h
        · exact absurd h (by simp)
        next pid0 hti =>
          simp only [Except.ok.injEq, Prod.mk.injEq] at h
          obtain ⟨rfl, rfl, -, -⟩ := h
          refine ⟨pn, pmts, hh, hp, ?_⟩
          by_cases h9 : pmts.length > 9
          · rw [if_pos h9] at hl ⊢
            exact hl
          · rw [if_neg h9] at hl ⊢
            exact hl

/-- Witness for C3 on the one-panel demo coordinate table. -/
theorem C3_witness :
    ∃ pn pmts, hostScan demoRows "X101" = some (⟨1, 2, 3⟩, pn) ∧
      panelPmts demoRows pn = Except.ok pmts ∧
      (if pmts.length > 9 then List.lookup 10 pmts = some ⟨1, 2, 3⟩
       else List.lookup 4 pmts = some ⟨1, 2, 3⟩) :=
  C3_central_cell "X101" "X101" demoRows ⟨1, 2, 3⟩ ⟨1, 2, 3⟩ ⟨1, 2, 3⟩ 101 rfl

/-- Claim C4: calling the placement with a neighbour identifier containing
the "none" sentinel returns exactly the same result as calling it with the
neighbour identifier equal to the host identifier. -/
theorem C4_sentinel_neighbour (host neigh : String) (rows : List Row) (pt : PanelTable)
    (h : containsNone neigh = true) :
    calc_fibre_placement host neigh rows pt = calc_fibre_placement host host rows pt := by
  have hg : getPmtCoordinates host neigh rows = getPmtCoordinates host host rows := by
    simp only [getPmtCoordinates, h, if_true, ite_self]
  rw [calc_fibre_placement, calc_fibre_placement, hg]

/-- Witness for C4 with the literal sentinel string. -/
theorem C4_witness :
    calc_fibre_placement "AAAA" "none" [] ⟨[], [], [], []⟩
      = calc_fibre_placement "AAAA" "AAAA" [] ⟨[], [], [], []⟩ :=
  C4_sentinel_neighbour "AAAA" "none" [] ⟨[], [], [], []⟩ (by decide)

/-- Claim C5: for a fibre with a recorded database position, the validator's
loop body reports a discrepancy iff the recorded x divided by 10 differs from
the computed x by more than 1 cm, where the computed position is `posB` for
"B"-suffixed fibre ids and `posA` otherwise; the recorded y and z never
affect whether a report is emitted.  (The non-empty hypothesis reflects that
Python's `fibre[-1]` raises on an empty identifier.) -/
theorem C5_validator_x_only (f host neigh : String) (rx ry rz : ℝ) (pA pB : Vec3)
    (hne : f ≠ "") :
    ((compareOne f host neigh (rx, ry, rz) pA pB).isSome = true
      ↔ |rx / 10 - (if f.back = 'B' then pB.x else pA.x)| > 1) ∧
    (∀ ry' rz' : ℝ, (compareOne f host neigh (rx, ry', rz') pA pB).isSome
      = (compareOne f host neigh (rx, ry, rz) pA pB).isSome) := by
  constructor
  · by_cases hb : f.back = 'B'
    · by_cases hc : |rx / 10 - pB.x| > 1
      · simp [compareOne, hb, hc]
      · simp [compareOne, hb, hc]
    · by_cases hc : |rx / 10 - pA.x| > 1
      · simp [compareOne, hb, hc]
      · simp [compareOne, hb, hc]
  · intro ry' rz'
    by_cases hb : f.back = 'B'
    · by_cases hc : |rx / 10 - pB.x| > 1
      · simp [compareOne, hb, hc]
      · simp [compareOne, hb, hc]
    · by_cases hc : |rx / 10 - pA.x| > 1
      · simp [compareOne, hb, hc]
      · simp [compareOne, hb, hc]

/-- Witness for C5 at a concrete fibre and recorded position. -/
theorem C5_witness :
    (((compareOne "FA001A" "h1" "n1" ((100 : ℝ), 0, 0) ⟨0, 0, 0⟩ ⟨0, 0, 0⟩).isSome = true
      ↔ |(100 : ℝ) / 10 - (if "FA001A".back = 'B' then (⟨0, 0, 0⟩ : Vec3).x
          else (⟨0, 0, 0⟩ : Vec3).x)| > 1) ∧
    (∀ ry' rz' : ℝ, (compareOne "FA001A" "h1" "n1" ((100 : ℝ), ry', rz')
        ⟨0, 0, 0⟩ ⟨0, 0, 0⟩).isSome
      = (compareOne "FA001A" "h1" "n1" ((100 : ℝ), 0, 0) ⟨0, 0, 0⟩ ⟨0, 0, 0⟩).isSome)) :=
  C5_validator_x_only "FA001A" "h1" "n1" 100 0 0 ⟨0, 0, 0⟩ ⟨0, 0, 0⟩ (by decide)

/-- Counterexample to claim C6 as stated: for a fibre whose recorded pointing
vector (-1,0,0) is exactly antiparallel to its recorded central vector
(1,0,0), the source's `get_pointing_angle` returns 0, not the claimed 180. -/
theorem C6_counterexample :
    get_pointing_angle "FB055A" (fun _ => some ⟨1, 0, 0, -1, 0, 0⟩) = Except.ok 0 ∧
    (0 : ℝ) ≠ 180 := by
  refine ⟨?_, by norm_num⟩
  show Except.ok (pointing_angle_of ⟨1, 0, 0⟩ ⟨-1, 0, 0⟩) = Except.ok 0
  have hm2a : Vec3.mag2 ⟨1, 0, 0⟩ = 1 := by rw [Vec3.mag2, Vec3.dot]; norm_num
  have hm2b : Vec3.mag2 ⟨-1, 0, 0⟩ = 1 := by rw [Vec3.mag2, Vec3.dot]; norm_num
  have hdot : Vec3.dot ⟨1, 0, 0⟩ ⟨-1, 0, 0⟩ = -1 := by rw [Vec3.dot]; norm_num
  have hang : Vec3.angle ⟨1, 0, 0⟩ ⟨-1, 0, 0⟩ = Real.pi := by
    rw [Vec3.angle, hm2a, hm2b, hdot]
    norm_num [Real.sqrt_one, Real.arccos_neg_one]
  have hval : pointing_angle_of ⟨1, 0, 0⟩ ⟨-1, 0, 0⟩ = 0 := by
    rw [pointing_angle_of, hang]
    field_simp
  rw [hval]

/-- Claim C6 (amended): the code's pointing angle is `180° − angle(central,
pointing)`, so an exactly antiparallel pointing vector yields 0° and a
pointing vector equal to the central vector yields 180°. -/
theorem C6_amended_angles (c : Vec3) (h : c ≠ Vec3.zero) :
    pointing_angle_of c (Vec3.neg c) = 0 ∧ pointing_angle_of c c = 180 := by
  have hs : 0 < c.mag2 :=
    lt_of_le_of_ne (Vec3.mag2_nonneg c)
      (fun hh => h ((Vec3.mag2_eq_zero_iff c).mp hh.symm))
  have hm2neg : Vec3.mag2 (Vec3.neg c) = c.mag2 := by
    simp only [Vec3.mag2, Vec3.dot, Vec3.neg]
    ring
  have hdotneg : Vec3.dot c (Vec3.neg c) = -c.mag2 := by
    simp only [Vec3.mag2, Vec3.dot, Vec3.neg]
    ring
  have hdotself : Vec3.dot c c = c.mag2 := rfl
  have hsqrt : Real.sqrt (c.mag2 * c.mag2) = c.mag2 := Real.sqrt_mul_self (le_of_lt hs)
  have hcond : ¬(c.mag2 * c.mag2 ≤ 0) := not_le.mpr (mul_pos hs hs)
  constructor
  · rw [pointing_angle_of, Vec3.angle, hm2neg, if_neg hcond, hsqrt, hdotneg, neg_div,
      div_self (ne_of_gt hs), Real.arccos_neg_one]
    field_simp
  · rw [pointing_angle_of, Vec3.angle, if_neg hcond, hsqrt, hdotself,
      div_self (ne_of_gt hs), Real.arccos_one]
    norm_num

/-- Witness for the amended C6 at a concrete nonzero vector. -/
theorem C6_witness :
    pointing_angle_of ⟨1, 0, 0⟩ (Vec3.neg ⟨1, 0, 0⟩) = 0 ∧
    pointing_angle_of ⟨1, 0, 0⟩ ⟨1, 0, 0⟩ = 180 :=
  C6_amended_angles ⟨1, 0, 0⟩ (by simp [Vec3.zero, Vec3.mk.injEq])

/-- Claim C7: a fibre whose identifier starts with "FT" bypasses the pointing
angle calculation and is written with angle 0, whatever the database holds. -/
theorem C7_ft_fixed_angle (f : String) (nodes : String → Int)
    (db : String → Option FibreEntry) (h : f.take 2 = "FT") :
    processOne f nodes db = some (dbRecord (nodes f) 0) := by
  simp [processOne, h]

/-- Witness for C7 on a concrete "FT" fibre. -/
theorem C7_witness :
    processOne "FT001A" (fun _ => 7) (fun _ => none) = some (dbRecord 7 0) :=
  C7_ft_fixed_angle "FT001A" (fun _ => 7) (fun _ => none) (by decide)

/-! Concrete data for C8: fibre "FB001A" maps to the unresolvable host cell
"ZZZZ", fibre "FB002A" to the resolvable cell "X101". -/

def demoPmtHex : String → String := fun f => if f == "FB001A" then "ZZZZ" else "X101"

def demoNeighHex : String → String := fun _ => "X101"

def demoDB : String → Option (ℝ × ℝ × ℝ) := fun _ => some (0, 0, 0)

/-- Counterexample to claim C8 as stated: with fibre "FB001A" naming a host
cell that has no match in the coordinate table, the whole batch aborts with
an error — the run does not continue with the processable fibre "FB002A",
whose result is lost. -/
theorem C8_counterexample :
    comparePositions ["FB001A", "FB002A"] demoPmtHex demoNeighHex demoRows demoPT demoDB
      = Except.error "unresolvable host cell" := rfl

/-- Claim C8 (amended): per-fibre isolation holds only for the guarded
database lookup — when a fibre's placement succeeds but its database record
lacks a position, that fibre is skipped and the run continues with the next
fibre; an unresolvable cell, by contrast, aborts the whole batch. -/
theorem C8_amended_skip (f : String) (rest : List String) (ph nh : String → String)
    (rows : List Row) (pt : PanelTable) (db : String → Option (ℝ × ℝ × ℝ))
    (hok : ∃ p, calc_fibre_placement (ph f) (nh f) rows pt = Except.ok p)
    (hdb : db f = none) :
    comparePositions (f :: rest) ph nh rows pt db
      = comparePositions rest ph nh rows pt db := by
  obtain ⟨p, hp⟩ := hok
  obtain ⟨p1, p2⟩ := p
  simp only [comparePositions, hp, hdb]

/-- Witness for the amended C8: a fibre whose placement succeeds but whose
database record is missing is skipped without aborting. -/
theorem C8_amended_witness :
    comparePositions ["FB002A"] demoPmtHex demoNeighHex demoRows demoPT (fun _ => none)
      = comparePositions [] demoPmtHex demoNeighHex demoRows demoPT (fun _ => none) :=
  C8_amended_skip "FB002A" [] demoPmtHex demoNeighHex demoRows demoPT (fun _ => none)
    ⟨_, rfl⟩ rfl

/-- Claim C9 evaluated: every record carries exactly three fields, but the
first is keyed `"psup_pannel"` (the source's literal at line 273), not the
`psup_panel` named by the claim and by the script's own docstring. -/
theorem C9_field_names :
    make_new_db_files ["FT001A"] (fun _ => 5) (fun _ => none)
      = [("FT001A", [("psup_pannel", 5), ("pointing_angle", 0), ("fibre_status", 0)])] ∧
    "psup_pannel" ≠ "psup_panel" := ⟨rfl, by decide⟩

/-- Every record `processOne` can emit is a `dbRecord`. -/
theorem processOne_shape (f : String) (nodes : String → Int)
    (db : String → Option FibreEntry) (r : List (String × Int))
    (h : processOne f nodes db = some r) : ∃ n a, r = dbRecord n a := by
  rw [processOne] at h
  split at h
  · exact ⟨nodes f, 0, by injection h with h1; exact h1.symm⟩
  · split at h
    · exact absurd h (by simp)
    next a ha => exact ⟨nodes f, roundTen a, by injection h with h1; exact h1.symm⟩

/-- The third `SetI` field of every record is `("fibre_status", 0)`. -/
theorem lookup_dbRecord (n a : Int) :
    List.lookup "fibre_status" (dbRecord n a) = some 0 := rfl

/-- Claim C10: every output record written by `make_new_db_files` carries
`fibre_status = 0` (Installed-OK), regardless of the fibre's actual install
state; no other status value is ever emitted. -/
theorem C10_status_zero (fibres : List String) (nodes : String → Int)
    (db : String → Option FibreEntry) (f : String) (r : List (String × Int))
    (h : (f, r) ∈ make_new_db_files fibres nodes db) :
    List.lookup "fibre_status" r = some 0 := by
  induction fibres with
  | nil => simp [make_new_db_files] at h
  | cons g rest ih =>
    rw [make_new_db_files] at h
    cases hp : processOne g nodes db with
    | none =>
      rw [hp] at h
      exact ih h
    | some r0 =>
      rw [hp] at h
      simp only [List.mem_cons, Prod.mk.injEq] at h
      rcases h with ⟨hfg, hr⟩ | h
      · obtain ⟨n, a, hra⟩ := processOne_shape g nodes db r0 hp
        rw [hr, hra]
        exact lookup_dbRecord n a
      · exact ih h

/-- Witness for C10 on a concrete run. -/
theorem C10_witness : List.lookup "fibre_status" (dbRecord 5 0) = some 0 :=
  C10_status_zero ["FT001A"] (fun _ => 5) (fun _ => none) "FT001A" (dbRecord 5 0)
    (List.Mem.head _)
